import Mathlib

/-!
Verification of the WebSocket chat subsystem of `server.js`
(the `wss.on('connection')` handler, the `clients` Map registry, and the
`broadcast` function, lines 373-613 of the server source).

The embedding is a shallow one:

* `ServerState` holds the in-memory state of the server process:
  `conns` models `wss.clients` (each connection id paired with a Bool that is
  `true` exactly when `readyState === WebSocket.OPEN`), `locals` models the
  per-connection closure variables `currentUser` / `currentRoom` captured by
  the `wss.on('connection')` callback, `clients` models the `clients` Map
  from a connection to `{ username, room }`, and `now` is the server clock
  used for `new Date()` / `CURRENT_TIMESTAMP` (one tick per handled message,
  which reflects the single-threaded event loop assigning distinct times).
* `DB` holds the PostgreSQL tables read and written by the handler:
  `users(username, password)` (the stored bcrypt hash is modelled as the
  secret itself, so `bcrypt.compare` becomes string equality),
  `chat_rooms(id, name)`, `room_members(room_id, username)` and
  `messages(room_id, username, content, type, created_at)`.
* Each inbound WebSocket frame is an `InEvent`; handling one produces a new
  `ServerState`, a new `DB` and a list of `Effect`s (socket sends and the
  `INSERT INTO messages`), in the order the source performs them.
* JavaScript truthiness (`data.roomId || clientInfo?.room`, `if (!roomId)`,
  `if (!currentUser)`, `if (currentRoom)`) is modelled explicitly:
  `0`, `null`/`undefined` and the empty string are falsy.
-/

/-- One registry entry of the `clients` Map: `{ username, room }`. -/
structure Session where
  username : String
  room : Option Nat
deriving DecidableEq, Repr

/-- The closure variables `currentUser` and `currentRoom` of one
`wss.on('connection')` callback. -/
structure ConnLocal where
  currentUser : Option String
  currentRoom : Option Nat
deriving DecidableEq, Repr

/-- One row of the `messages` table. -/
structure MsgRow where
  room_id : Nat
  username : String
  content : String
  type : String
  created_at : Nat
deriving DecidableEq, Repr

/-- The database tables touched by the WebSocket handler. -/
structure DB where
  users : List (String × String)
  chat_rooms : List (Nat × String)
  room_members : List (Nat × String)
  messages : List MsgRow
deriving DecidableEq, Repr

/-- A parsed inbound JSON payload (`data` after `JSON.parse`): the `type`
discriminator plus the fields the handler reads; `extra` carries the
kind-specific fields (`imageUrl`, `pdfUrl`, `pdfName`, `emoji`) that the
`{...data}` spread copies into the broadcast payload untouched. -/
structure InData where
  type : String
  username : String
  password : String
  roomId : Option Nat
  content : String
  extra : List (String × String)
deriving DecidableEq, Repr

/-- An inbound frame: either `JSON.parse` throws (`unparseable`) or it
yields an `InData`. -/
inductive InEvent where
  | unparseable
  | parsed (d : InData)
deriving DecidableEq, Repr

/-- An outbound JSON payload written with `ws.send` / `client.send`. -/
inductive WireMsg where
  | sysMsg (content : String)
  | errMsg (content : String)
  | sysRoom (content : String) (roomId : Nat)
  | chatOut (type content username : String) (roomId : Nat) (timestamp : Nat)
      (extra : List (String × String))
deriving DecidableEq, Repr

/-- The `roomId` property of an outbound payload (`none` = the payload
carries no `roomId`, i.e. the property access yields `undefined`). -/
def WireMsg.roomId? : WireMsg → Option Nat
  | .sysRoom _ r => some r
  | .chatOut _ _ _ r _ _ => some r
  | _ => none

/-- An observable side effect of handling one event: a socket send to one
connection, or the `INSERT INTO messages` persistence write.  Effects are
listed in the order the source performs them. -/
inductive Effect where
  | send (target : Nat) (msg : WireMsg)
  | persist (row : MsgRow)
deriving DecidableEq, Repr

/-- In-memory server state: `wss.clients` with ready states, the handler
closures, the `clients` Map, and the server clock. -/
structure ServerState where
  conns : List (Nat × Bool)
  locals : List (Nat × ConnLocal)
  clients : List (Nat × Session)
  now : Nat
deriving DecidableEq, Repr

/-- `Map.prototype.set`: update in place if the key is present (JS Maps keep
the original insertion position), otherwise append. -/
def mapSet {α : Type} (k : Nat) (v : α) : List (Nat × α) → List (Nat × α)
  | [] => [(k, v)]
  | e :: rest => if e.1 = k then (k, v) :: rest else e :: mapSet k v rest

/-- `Map.prototype.get`. -/
def mapGet {α : Type} (k : Nat) (m : List (Nat × α)) : Option α :=
  (m.find? (fun e => e.1 == k)).map (fun e => e.2)

/-- `Map.prototype.delete`. -/
def mapDelete {α : Type} (k : Nat) (m : List (Nat × α)) : List (Nat × α) :=
  m.filter (fun e => e.1 != k)

/-- The closure variables of connection `c` (a connection that was never
opened has the initial `null`/`null` pair). -/
def localOf (st : ServerState) (c : Nat) : ConnLocal :=
  (mapGet c st.locals).getD ⟨none, none⟩

/-- JS truthiness of a room id value: `undefined`/`null` and `0` are falsy;
the result is the normalized truthy value if any. -/
def jsRoomTruthy : Option Nat → Option Nat
  | some r => if r = 0 then none else some r
  | none => none

/-- JS `a || b` on two room id values. -/
def jsOrRoom : Option Nat → Option Nat → Option Nat
  | some r, b => if r = 0 then b else some r
  | none, b => b

/-- JS truthiness of a username value: `null` and `""` are falsy. -/
def jsStrTruthy : Option String → Option String
  | some s => if s = "" then none else some s
  | none => none

/-- The rows of `SELECT * FROM room_members WHERE room_id = $1 AND
username = $2`. -/
def memberRows (db : DB) (rid : Nat) (u : String) : List (Nat × String) :=
  db.room_members.filter (fun m => m.1 == rid && m.2 == u)

/-- The rows of `SELECT * FROM messages WHERE room_id = $1`. -/
def roomMessages (db : DB) (rid : Nat) : List MsgRow :=
  db.messages.filter (fun m => m.room_id == rid)

/-- Insert one row into a list kept in descending `created_at` order
(the comparison mirrors SQL `ORDER BY created_at DESC`). -/
def insertDesc (m : MsgRow) : List MsgRow → List MsgRow
  | [] => [m]
  | x :: xs => if x.created_at ≤ m.created_at then m :: x :: xs else x :: insertDesc m xs

/-- Sort rows by `created_at` descending (`ORDER BY created_at DESC`). -/
def sortDesc : List MsgRow → List MsgRow
  | [] => []
  | x :: xs => insertDesc x (sortDesc xs)

/-- The rows replayed on `join_room`: `SELECT * FROM messages WHERE
room_id = $1 ORDER BY created_at DESC LIMIT 50` followed by the JS
`.rows.reverse()`, so oldest-to-newest among the newest 50. -/
def replayList (db : DB) (rid : Nat) : List MsgRow :=
  ((sortDesc (roomMessages db rid)).take 50).reverse

/-- The `broadcast(data, exclude)` function: iterate `wss.clients` and send
`data` to every connection that is not `exclude`, has
`readyState === WebSocket.OPEN`, and whose `clients` Map entry has
`room === data.roomId`. -/
def broadcast (st : ServerState) (data : WireMsg) (exclude : Option Nat) : List Effect :=
  (st.conns.filter (fun cl =>
      (exclude != some cl.1) && cl.2 &&
        ((mapGet cl.1 st.clients).bind Session.room == data.roomId?))).map
    (fun cl => Effect.send cl.1 data)

/-- The `data.type === 'login'` branch of the message handler. -/
def handleLogin (st : ServerState) (db : DB) (c : Nat) (username password : String) :
    ServerState × DB × List Effect :=
  match db.users.find? (fun p => p.1 == username) with
  | none => (st, db, [Effect.send c (WireMsg.errMsg "Invalid username or password")])
  | some user =>
    if user.2 != password then
      (st, db, [Effect.send c (WireMsg.errMsg "Invalid username or password")])
    else
      let lo := localOf st c
      let previousClient := st.clients.find? (fun p => p.2.username == username)
      let currentRoom := match previousClient with
        | some p => p.2.room
        | none => lo.currentRoom
      let st1 : ServerState :=
        { st with
          locals := mapSet c ⟨some username, currentRoom⟩ st.locals,
          clients := mapSet c ⟨username, currentRoom⟩ st.clients }
      let welcome := Effect.send c (WireMsg.sysMsg ("Welcome, " ++ username ++ "!"))
      match jsRoomTruthy currentRoom with
      | none => (st1, db, [welcome])
      | some rid =>
        match (db.chat_rooms.filter (fun r => r.1 == rid)).head? with
        | none => (st1, db, [welcome])
        | some rr =>
          (st1, db,
            welcome ::
              Effect.send c (WireMsg.sysMsg ("Reconnected to room: " ++ rr.2)) ::
              broadcast st1 (WireMsg.sysRoom (username ++ " reconnected to the room") rid)
                (some c))

/-- The `data.type === 'join_room'` branch.  A missing `roomId` reaches the
membership query as SQL `room_id = NULL`, which matches no row, so it takes
the same `Not a member of this room` exit; the `none` case spells that out.
If the membership row exists but the `chat_rooms` row does not,
`resultRoom.rows[0].name` throws and the surrounding `catch` sends
`Failed to join room. Please try again.` after the state was already
mutated. -/
def handleJoin (st : ServerState) (db : DB) (c : Nat) (roomId : Option Nat) :
    ServerState × DB × List Effect :=
  match jsStrTruthy (localOf st c).currentUser with
  | none => (st, db, [Effect.send c (WireMsg.errMsg "Please log in first")])
  | some u =>
    match roomId with
    | none => (st, db, [Effect.send c (WireMsg.errMsg "Not a member of this room")])
    | some rid =>
      if (memberRows db rid u).isEmpty then
        (st, db, [Effect.send c (WireMsg.errMsg "Not a member of this room")])
      else
        let lo := localOf st c
        let st1 : ServerState :=
          { st with
            locals := mapSet c { lo with currentRoom := some rid } st.locals,
            clients := mapSet c ⟨u, some rid⟩ st.clients }
        match (db.chat_rooms.filter (fun r => r.1 == rid)).head? with
        | none =>
          (st1, db, [Effect.send c (WireMsg.errMsg "Failed to join room. Please try again.")])
        | some rr =>
          (st1, db,
            Effect.send c (WireMsg.sysMsg ("Joined room: " ++ rr.2)) ::
              ((replayList db rid).map (fun m =>
                Effect.send c
                  (WireMsg.chatOut m.type m.content m.username m.room_id m.created_at []))
              ++ broadcast st1 (WireMsg.sysRoom (u ++ " joined the room") rid) (some c)))

/-- The chat-content branch (`data.type` one of `message`, `image`, `pdf`,
`emoji`): resolve the room as `data.roomId || clientInfo?.room`, guard on a
truthy room, then on a truthy `currentUser`, re-verify membership, bind the
registry entry to the room if it had none, then persist and broadcast. -/
def handleChat (st : ServerState) (db : DB) (c : Nat) (d : InData) :
    ServerState × DB × List Effect :=
  let clientInfo := mapGet c st.clients
  match jsRoomTruthy (jsOrRoom d.roomId (clientInfo.bind Session.room)) with
  | none => (st, db, [Effect.send c (WireMsg.errMsg "Please join a room first")])
  | some rid =>
    match jsStrTruthy (localOf st c).currentUser with
    | none => (st, db, [Effect.send c (WireMsg.errMsg "Please log in first")])
    | some u =>
      if (memberRows db rid u).isEmpty then
        (st, db, [Effect.send c (WireMsg.errMsg "You are not a member of this room")])
      else
        let st1 : ServerState :=
          if jsRoomTruthy (clientInfo.bind Session.room) = none then
            { st with clients := mapSet c ⟨u, some rid⟩ st.clients }
          else st
        let row : MsgRow := ⟨rid, u, d.content, d.type, st.now⟩
        (st1, { db with messages := db.messages ++ [row] },
          Effect.persist row ::
            broadcast st1 (WireMsg.chatOut d.type d.content u rid st.now d.extra) (some c))

/-- The whole `ws.on('message')` handler: the outer `catch` turns a
`JSON.parse` failure into `Invalid message format`; a parsed payload is
dispatched on `data.type`; a type matching none of the `if`/`else if` arms
falls through the chain and the handler returns without doing anything. -/
def handleWsMessage (st : ServerState) (db : DB) (c : Nat) :
    InEvent → ServerState × DB × List Effect
  | .unparseable => (st, db, [Effect.send c (WireMsg.errMsg "Invalid message format")])
  | .parsed d =>
    if d.type = "login" then handleLogin st db c d.username d.password
    else if d.type = "join_room" then handleJoin st db c d.roomId
    else if d.type = "message" ∨ d.type = "image" ∨ d.type = "pdf" ∨ d.type = "emoji" then
      handleChat st db c d
    else (st, db, [])

/-- The `ws.on('close')` handler (`clients.delete(ws)`) together with the
`ws` library housekeeping that removes the socket from `wss.clients` and
drops the connection callback closure. -/
def handleClose (st : ServerState) (c : Nat) : ServerState :=
  { st with
    conns := st.conns.filter (fun e => e.1 != c),
    locals := mapDelete c st.locals,
    clients := mapDelete c st.clients }

/-- A server-level event: a new connection (`wss.on('connection')`, which
initializes the closure variables to `null` and adds the open socket to
`wss.clients`), an inbound frame on a connection, or a connection close. -/
inductive Event where
  | connect (c : Nat)
  | wsMessage (c : Nat) (m : InEvent)
  | close (c : Nat)
deriving DecidableEq, Repr

/-- One step of the event loop.  Handling a frame advances the clock so that
successive server-assigned timestamps are distinct. -/
def step (st : ServerState) (db : DB) : Event → ServerState × DB × List Effect
  | .connect c =>
    ({ st with
        conns := st.conns ++ [(c, true)],
        locals := mapSet c ⟨none, none⟩ st.locals }, db, [])
  | .wsMessage c m =>
    let r := handleWsMessage st db c m
    ({ r.1 with now := r.1.now + 1 }, r.2.1, r.2.2)
  | .close c => (handleClose st c, db, [])

/-- Run a sequence of events, accumulating the effect trace. -/
def run (st : ServerState) (db : DB) : List Event → ServerState × DB × List Effect
  | [] => (st, db, [])
  | e :: es =>
    let r := step st db e
    let r2 := run r.1 r.2.1 es
    (r2.1, r2.2.1, r.2.2 ++ r2.2.2)

/-- The state of a freshly started server process. -/
def initialState : ServerState := ⟨[], [], [], 0⟩

/-! ### Concrete fixtures used by witnesses and counterexamples -/

/-- Three open connections: alice and carol joined room 7, dave room 9. -/
def stC1 : ServerState :=
  ⟨[(1, true), (2, true), (3, true)],
   [(1, ⟨some "alice", some 7⟩), (2, ⟨some "carol", some 7⟩), (3, ⟨some "dave", some 9⟩)],
   [(1, ⟨"alice", some 7⟩), (2, ⟨"carol", some 7⟩), (3, ⟨"dave", some 9⟩)], 5⟩

def dbC1 : DB :=
  ⟨[("alice", "pw"), ("carol", "pw"), ("dave", "pw")], [(7, "general"), (9, "nine")],
   [(7, "alice"), (7, "carol"), (9, "dave")], []⟩

/-- A plain text message with no payload `roomId`: the session room is used. -/
def dC1 : InData := ⟨"message", "", "", none, "hi", []⟩

def stC2 : ServerState :=
  ⟨[(1, true), (2, true), (3, true)], [],
   [(1, ⟨"a", some 7⟩), (2, ⟨"b", some 7⟩), (3, ⟨"c", some 9⟩)], 0⟩

def msgC2 : WireMsg := WireMsg.sysRoom "x" 7

def dbC3 : DB := ⟨[("alice", "pw")], [(7, "general")], [(7, "alice")], []⟩

/-- Connection 1 logs in as alice, joins room 7, closes; connection 2 then
logs in as alice. -/
def traceC3 : List Event :=
  [Event.connect 1,
   Event.wsMessage 1 (InEvent.parsed ⟨"login", "alice", "pw", none, "", []⟩),
   Event.wsMessage 1 (InEvent.parsed ⟨"join_room", "", "", some 7, "", []⟩),
   Event.close 1,
   Event.connect 2,
   Event.wsMessage 2 (InEvent.parsed ⟨"login", "alice", "pw", none, "", []⟩)]

/-- Connection 1 dropped its transport (readyState no longer OPEN) but its
close event has not been processed, so its registry entry survives with
room 7; connection 2 is fresh. -/
def stC3 : ServerState :=
  ⟨[(1, false), (2, true)], [(2, ⟨none, none⟩)], [(1, ⟨"alice", some 7⟩)], 0⟩

/-- Note the empty `room_members` table: inheritance on login does not
consult membership at all. -/
def dbC3b : DB := ⟨[("alice", "pw")], [(7, "general")], [], []⟩

/-- bob is logged in with no session room and is not a member of room 9. -/
def stC4 : ServerState :=
  ⟨[(1, true)], [(1, ⟨some "bob", none⟩)], [(1, ⟨"bob", none⟩)], 3⟩

def dbC4 : DB := ⟨[("bob", "pw")], [(9, "nine")], [], []⟩

def dC4 : InData := ⟨"message", "", "", some 9, "x", []⟩

/-- alice is logged in but has not joined a room; carol is in room 7. -/
def stC5 : ServerState :=
  ⟨[(1, true), (2, true)],
   [(1, ⟨some "alice", none⟩), (2, ⟨some "carol", some 7⟩)],
   [(1, ⟨"alice", none⟩), (2, ⟨"carol", some 7⟩)], 10⟩

/-- History holds rows for rooms 7 and 9 with ascending timestamps. -/
def dbC5 : DB :=
  ⟨[("alice", "pw"), ("carol", "pw")], [(7, "general"), (9, "nine")],
   [(7, "alice"), (7, "carol"), (9, "dave")],
   [⟨7, "carol", "m0", "message", 0⟩, ⟨9, "dave", "m1", "message", 1⟩,
    ⟨7, "carol", "m2", "message", 2⟩]⟩

def stC6 : ServerState :=
  ⟨[(1, true), (2, true)],
   [(1, ⟨some "alice", some 7⟩), (2, ⟨some "carol", some 7⟩)],
   [(1, ⟨"alice", some 7⟩), (2, ⟨"carol", some 7⟩)], 12⟩

def dbC6 : DB :=
  ⟨[("alice", "pw"), ("carol", "pw")], [(7, "general")],
   [(7, "alice"), (7, "carol")], []⟩

/-- An image message: the spread copies `imageUrl` into the broadcast. -/
def dC6 : InData := ⟨"image", "", "", none, "/uploads/x.png", [("imageUrl", "/uploads/x.png")]⟩

def stC7 : ServerState := ⟨[(1, true)], [(1, ⟨none, none⟩)], [], 0⟩

def dbC7 : DB := ⟨[], [], [], []⟩

/-- A parsed payload whose `type` matches no handler branch. -/
def dC7 : InData := ⟨"ping", "", "", none, "", []⟩

/-- `leave_room` is listed as a protocol type but has no handler branch. -/
def dC7b : InData := ⟨"leave_room", "", "", none, "", []⟩

/-- Connection 2 is in room 7 but its transport already closed
(readyState not OPEN); 1 and 3 are open members of room 7. -/
def stC8 : ServerState :=
  ⟨[(1, true), (2, false), (3, true)], [],
   [(1, ⟨"a", some 7⟩), (2, ⟨"b", some 7⟩), (3, ⟨"c", some 7⟩)], 0⟩

def msgC8 : WireMsg := WireMsg.sysRoom "hello" 7

/-- alice is logged in, never sent `join_room` (session room unset), and is
a member of room 5; bob is joined to room 5. -/
def stC9 : ServerState :=
  ⟨[(1, true), (2, true)],
   [(1, ⟨some "alice", none⟩), (2, ⟨some "bob", some 5⟩)],
   [(1, ⟨"alice", none⟩), (2, ⟨"bob", some 5⟩)], 8⟩

def dbC9 : DB :=
  ⟨[("alice", "pw"), ("bob", "pw")], [(5, "five")], [(5, "alice"), (5, "bob")], []⟩

def dC9 : InData := ⟨"message", "", "", some 5, "yo", []⟩

/-! ### Helper lemmas about the registry map operations -/

theorem mapGet_mapSet_self {α : Type} (k : Nat) (v : α) (m : List (Nat × α)) :
    mapGet k (mapSet k v m) = some v := by
  induction m with
  | nil => simp [mapGet, mapSet]
  | cons e rest ih =>
    by_cases h : e.1 = k
    · simp [mapGet, mapSet, h]
    · simp only [mapSet, if_neg h, mapGet, List.find?]
      have hb : (e.1 == k) = false := by simpa using h
      rw [hb]
      exact ih

theorem mapGet_mapDelete_self {α : Type} (k : Nat) (m : List (Nat × α)) :
    mapGet k (mapDelete k m) = none := by
  induction m with
  | nil => simp [mapGet, mapDelete]
  | cons e rest ih =>
    by_cases h : e.1 = k
    · rw [show mapDelete k (e :: rest) = mapDelete k rest from by simp [mapDelete, h]]
      exact ih
    · simp only [mapDelete, List.filter_cons]
      have hb : (e.1 != k) = true := by simpa using h
      rw [hb]
      simp only [mapGet, List.find?]
      have hb2 : (e.1 == k) = false := by simpa using h
      rw [hb2]
      exact ih

/-! ### Helper lemmas about the membership query -/

theorem memberRows_isEmpty_of_not_mem {db : DB} {rid : Nat} {u : String}
    (h : (rid, u) ∉ db.room_members) : (memberRows db rid u).isEmpty = true := by
  rw [memberRows, List.isEmpty_iff, List.filter_eq_nil_iff]
  intro m hm
  simp only [Bool.and_eq_true, beq_iff_eq]
  rintro ⟨h1, h2⟩
  exact h (by rwa [← h1, ← h2, Prod.mk.eta])

theorem memberRows_isEmpty_of_mem {db : DB} {rid : Nat} {u : String}
    (h : (rid, u) ∈ db.room_members) : (memberRows db rid u).isEmpty = false := by
  have h2 : ¬(memberRows db rid u).isEmpty = true := by
    rw [memberRows, List.isEmpty_iff, List.filter_eq_nil_iff]
    intro hall
    exact absurd (by simp) (hall (rid, u) h)
  simpa using h2

/-! ### Helper lemmas about `broadcast` -/

theorem mem_broadcast_iff {st : ServerState} {data : WireMsg} {exclude : Option Nat}
    {t : Nat} {m : WireMsg} :
    Effect.send t m ∈ broadcast st data exclude ↔
      m = data ∧ (t, true) ∈ st.conns ∧ exclude ≠ some t ∧
        (mapGet t st.clients).bind Session.room = data.roomId? := by
  simp only [broadcast, List.mem_map, List.mem_filter]
  constructor
  · rintro ⟨⟨a, b⟩, ⟨hcl, hcond⟩, heq⟩
    injection heq with h1 h2
    subst h1
    subst h2
    simp only [Bool.and_eq_true, bne_iff_ne, ne_eq, beq_iff_eq] at hcond
    obtain ⟨⟨hex, hopen⟩, hroom⟩ := hcond
    subst hopen
    exact ⟨rfl, hcl, hex, hroom⟩
  · rintro ⟨rfl, hconn, hex, hroom⟩
    refine ⟨(t, true), ⟨hconn, ?_⟩, rfl⟩
    simp only [Bool.and_eq_true, bne_iff_ne, ne_eq, beq_iff_eq]
    exact ⟨⟨hex, trivial⟩, hroom⟩

theorem broadcast_shape {st : ServerState} {data : WireMsg} {exclude : Option Nat}
    {e : Effect} (h : e ∈ broadcast st data exclude) : ∃ t, e = Effect.send t data := by
  simp only [broadcast, List.mem_map] at h
  rcases h with ⟨cl, _, rfl⟩
  exact ⟨cl.1, rfl⟩

theorem broadcast_excludes {st : ServerState} {data : WireMsg} {c : Nat} {m : WireMsg} :
    Effect.send c m ∉ broadcast st data (some c) := by
  intro h
  exact (mem_broadcast_iff.mp h).2.2.1 rfl

/-! ### Helper lemmas about the history query -/

theorem mem_insertDesc {m x : MsgRow} {l : List MsgRow} :
    x ∈ insertDesc m l ↔ x = m ∨ x ∈ l := by
  induction l with
  | nil => simp [insertDesc]
  | cons a rest ih =>
    by_cases h : a.created_at ≤ m.created_at
    · simp [insertDesc, h]
    · simp only [insertDesc, if_neg h, List.mem_cons, ih]
      tauto

theorem mem_sortDesc {x : MsgRow} {l : List MsgRow} : x ∈ sortDesc l ↔ x ∈ l := by
  induction l with
  | nil => simp [sortDesc]
  | cons a rest ih => simp [sortDesc, mem_insertDesc, ih]

theorem insertDesc_of_forall_lt {m : MsgRow} {l : List MsgRow}
    (h : ∀ x ∈ l, m.created_at < x.created_at) : insertDesc m l = l ++ [m] := by
  induction l with
  | nil => rfl
  | cons a rest ih =>
    have ha : ¬a.created_at ≤ m.created_at := by
      have := h a (List.mem_cons_self a rest)
      omega
    rw [insertDesc, if_neg ha, ih (fun x hx => h x (List.mem_cons_of_mem a hx))]
    rfl

/-- `ORDER BY created_at DESC` on rows whose stored order is strictly
ascending in `created_at` simply reverses them. -/
theorem sortDesc_of_pairwise_lt {l : List MsgRow}
    (h : l.Pairwise (fun a b => a.created_at < b.created_at)) :
    sortDesc l = l.reverse := by
  induction l with
  | nil => rfl
  | cons a rest ih =>
    rw [List.pairwise_cons] at h
    rw [sortDesc, ih h.2, insertDesc_of_forall_lt (fun x hx => h.1 x (List.mem_reverse.mp hx)),
      List.reverse_cons]

/-- The `messages` table is stored in strictly ascending `created_at`
order, as produced by append-only inserts stamped by a monotone clock. -/
def MessagesAsc (db : DB) : Prop :=
  db.messages.Pairwise (fun a b => a.created_at < b.created_at)

instance (db : DB) : Decidable (MessagesAsc db) := by
  unfold MessagesAsc
  infer_instance

theorem replayList_pairwise {db : DB} {rid : Nat} (h : MessagesAsc db) :
    (replayList db rid).Pairwise (fun a b => a.created_at < b.created_at) := by
  have hfil : (roomMessages db rid).Pairwise (fun a b => a.created_at < b.created_at) :=
    h.filter _
  rw [replayList, sortDesc_of_pairwise_lt hfil]
  rw [List.pairwise_reverse]
  exact ((List.pairwise_reverse.mpr (by simpa using hfil)).sublist
    (List.take_sublist 50 (roomMessages db rid).reverse))

theorem replayList_mem_room {db : DB} {rid : Nat} {m : MsgRow}
    (h : m ∈ replayList db rid) : m.room_id = rid := by
  rw [replayList, List.mem_reverse] at h
  have h2 := List.take_subset 50 _ h
  rw [mem_sortDesc, roomMessages, List.mem_filter] at h2
  simpa using h2.2

theorem replayList_length_le {db : DB} {rid : Nat} : (replayList db rid).length ≤ 50 := by
  rw [replayList, List.length_reverse]
  exact List.length_take_le 50 (sortDesc (roomMessages db rid))

/-! ### Claim theorems -/

/-- Claim C1: for a logged-in user and a resolved room, a chat-content
event succeeds — persisting the message and invoking `broadcast` — if and
only if a `room_members` row exists for that (room, username) pair when the
event is handled; without the row (e.g. membership revoked after join) the
post sends the not-a-member error notice and performs no persistence, no
broadcast and no state change. -/
theorem postMessage_membership_gate (st : ServerState) (db : DB) (c : Nat) (d : InData)
    (u : String) (rid : Nat)
    (hroom : jsRoomTruthy (jsOrRoom d.roomId ((mapGet c st.clients).bind Session.room)) =
      some rid)
    (huser : jsStrTruthy (localOf st c).currentUser = some u) :
    ((rid, u) ∈ db.room_members →
      (handleChat st db c d).2.1.messages =
        db.messages ++ [⟨rid, u, d.content, d.type, st.now⟩] ∧
      (handleChat st db c d).2.2 =
        Effect.persist ⟨rid, u, d.content, d.type, st.now⟩ ::
          broadcast (handleChat st db c d).1
            (WireMsg.chatOut d.type d.content u rid st.now d.extra) (some c)) ∧
    ((rid, u) ∉ db.room_members →
      handleChat st db c d =
        (st, db, [Effect.send c (WireMsg.errMsg "You are not a member of this room")])) := by
  constructor
  · intro hmem
    simp only [handleChat, hroom, huser, memberRows_isEmpty_of_mem hmem]
    simp
  · intro hmem
    simp only [handleChat, hroom, huser, memberRows_isEmpty_of_not_mem hmem]
    simp

/-- Witness for C1: alice (member of room 7, session room 7) posting `hi`
persists exactly one row, while a non-member pair would be rejected. -/
theorem postMessage_membership_gate_witness :
    (7, "alice") ∈ dbC1.room_members ∧
    (handleChat stC1 dbC1 1 dC1).2.1.messages =
      dbC1.messages ++ [⟨7, "alice", "hi", "message", 5⟩] :=
  ⟨by decide,
   ((postMessage_membership_gate stC1 dbC1 1 dC1 "alice" 7 (by decide) (by decide)).1
      (by decide)).1⟩

/-- Claim C2: for a room-tagged event, `broadcast` delivers to exactly the
open connections whose registry room equals the event room, minus the
excluded (originating) connection; the excluded connection never receives
its own message, and every emitted effect is a send of that event. -/
theorem broadcast_room_isolation (st : ServerState) (data : WireMsg) (exclude : Option Nat)
    (rid : Nat) (hroom : data.roomId? = some rid) :
    (∀ t m, Effect.send t m ∈ broadcast st data exclude ↔
      (m = data ∧ (t, true) ∈ st.conns ∧ exclude ≠ some t ∧
        (mapGet t st.clients).bind Session.room = some rid)) ∧
    (∀ c, exclude = some c → ∀ m, Effect.send c m ∉ broadcast st data exclude) ∧
    (∀ e ∈ broadcast st data exclude, ∃ t, e = Effect.send t data) := by
  refine ⟨fun t m => ?_, fun c hc m hmem => ?_, fun e he => broadcast_shape he⟩
  · rw [mem_broadcast_iff, hroom]
  · exact (mem_broadcast_iff.mp hmem).2.2.1 hc

/-- Witness for C2: with rooms 7,7,9 and sender 1 excluded, connection 2
receives, connection 3 (other room) does not, and 1 (sender) does not. -/
theorem broadcast_room_isolation_witness :
    (Effect.send 2 msgC2 ∈ broadcast stC2 msgC2 (some 1)) ∧
    (Effect.send 3 msgC2 ∉ broadcast stC2 msgC2 (some 1)) ∧
    (Effect.send 1 msgC2 ∉ broadcast stC2 msgC2 (some 1)) := by
  have h := broadcast_room_isolation stC2 msgC2 (some 1) 7 (by decide)
  refine ⟨(h.1 2 msgC2).mpr (by decide), fun hm => ?_, h.2.1 1 rfl msgC2⟩
  exact absurd ((h.1 3 msgC2).mp hm).2.2.2 (by decide)

/-- Claim C8: a connection that is not in the OPEN ready state when fan-out
iterates is skipped, every other open connection of the room still receives
the message, and no effect other than sends of the event is produced (so
nothing surfaces to the sender). -/
theorem broadcast_fanout_isolation (st : ServerState) (data : WireMsg) (exclude : Option Nat)
    (x t : Nat)
    (hxClosed : (x, true) ∉ st.conns)
    (htOpen : (t, true) ∈ st.conns) (htEx : exclude ≠ some t)
    (htRoom : (mapGet t st.clients).bind Session.room = data.roomId?) :
    (∀ m, Effect.send x m ∉ broadcast st data exclude) ∧
    Effect.send t data ∈ broadcast st data exclude ∧
    (∀ e ∈ broadcast st data exclude, ∃ t2, e = Effect.send t2 data) := by
  refine ⟨fun m hm => ?_, mem_broadcast_iff.mpr ⟨rfl, htOpen, htEx, htRoom⟩,
    fun e he => broadcast_shape he⟩
  exact hxClosed (mem_broadcast_iff.mp hm).2.1

/-- Witness for C8: connection 2's transport is closed, connection 3 still
receives the room-7 message excluded at 1. -/
theorem broadcast_fanout_isolation_witness :
    (Effect.send 2 msgC8 ∉ broadcast stC8 msgC8 (some 1)) ∧
    (Effect.send 3 msgC8 ∈ broadcast stC8 msgC8 (some 1)) := by
  have h := broadcast_fanout_isolation stC8 msgC8 (some 1) 2 3
    (by decide) (by decide) (by decide) (by decide)
  exact ⟨h.1 msgC8, h.2.1⟩

/-- Claim C10: processing a close event removes the connection's registry
entry unconditionally (no hypothesis about authentication or room),
persists nothing, sends and broadcasts nothing, and leaves no surviving
registry or closure entry for that connection. -/
theorem close_unconditional_cleanup (st : ServerState) (db : DB) (c : Nat) :
    (step st db (Event.close c)).2.2 = [] ∧
    (step st db (Event.close c)).2.1 = db ∧
    mapGet c ((step st db (Event.close c)).1).clients = none ∧
    mapGet c ((step st db (Event.close c)).1).locals = none := by
  refine ⟨rfl, rfl, ?_, ?_⟩ <;> simp [step, handleClose, mapGet_mapDelete_self]

/-- Claim C6: a successful post appends exactly one row
`(roomId, sender, content, kind)` to `messages`, and the persistence effect
precedes the broadcast invocation, whose event carries the sender's
username, the room id, the kind, the content, the spread-copied payload
fields and the server-assigned timestamp; everything after the persist is
a send of that fully-populated event. -/
theorem post_persist_then_broadcast (st : ServerState) (db : DB) (c : Nat) (d : InData)
    (u : String) (rid : Nat)
    (hroom : jsRoomTruthy (jsOrRoom d.roomId ((mapGet c st.clients).bind Session.room)) =
      some rid)
    (huser : jsStrTruthy (localOf st c).currentUser = some u)
    (hmem : (rid, u) ∈ db.room_members) :
    (handleChat st db c d).2.1.messages =
      db.messages ++ [⟨rid, u, d.content, d.type, st.now⟩] ∧
    (handleChat st db c d).2.2 =
      Effect.persist ⟨rid, u, d.content, d.type, st.now⟩ ::
        broadcast (handleChat st db c d).1
          (WireMsg.chatOut d.type d.content u rid st.now d.extra) (some c) ∧
    (∀ e ∈ (handleChat st db c d).2.2.tail,
      ∃ t, e = Effect.send t (WireMsg.chatOut d.type d.content u rid st.now d.extra)) := by
  have hmain :
      (handleChat st db c d).2.1.messages =
        db.messages ++ [⟨rid, u, d.content, d.type, st.now⟩] ∧
      (handleChat st db c d).2.2 =
        Effect.persist ⟨rid, u, d.content, d.type, st.now⟩ ::
          broadcast (handleChat st db c d).1
            (WireMsg.chatOut d.type d.content u rid st.now d.extra) (some c) := by
    simp only [handleChat, hroom, huser, memberRows_isEmpty_of_mem hmem]
    simp
  refine ⟨hmain.1, hmain.2, fun e he => ?_⟩
  rw [hmain.2, List.tail_cons] at he
  exact broadcast_shape he

/-- Witness for C6: alice posting an image to room 7 appends one row and
produces the persist effect followed only by sends of the populated event. -/
theorem post_persist_then_broadcast_witness :
    (7, "alice") ∈ dbC6.room_members ∧
    (handleChat stC6 dbC6 1 dC6).2.1.messages =
      dbC6.messages ++ [⟨7, "alice", "/uploads/x.png", "image", 12⟩] :=
  ⟨by decide,
   (post_persist_then_broadcast stC6 dbC6 1 dC6 "alice" 7 (by decide) (by decide)
      (by decide)).1⟩

/-- Claim C9 (implicit): the payload's `roomId`, when truthy, takes
precedence over the session room for membership, persistence and
broadcast; and when the session room is unset, handling the post also
mutates the registry entry, binding the session to the payload room — so a
member can post into, and be bound to, a room they never joined through
`join_room`. -/
theorem chat_payload_room_precedence (st : ServerState) (db : DB) (c : Nat) (d : InData)
    (u : String) (rid : Nat)
    (huser : jsStrTruthy (localOf st c).currentUser = some u)
    (hpay : d.roomId = some rid) (hrid : rid ≠ 0)
    (hmem : (rid, u) ∈ db.room_members) :
    (handleChat st db c d).2.1.messages =
      db.messages ++ [⟨rid, u, d.content, d.type, st.now⟩] ∧
    (handleChat st db c d).2.2 =
      Effect.persist ⟨rid, u, d.content, d.type, st.now⟩ ::
        broadcast (handleChat st db c d).1
          (WireMsg.chatOut d.type d.content u rid st.now d.extra) (some c) ∧
    (jsRoomTruthy ((mapGet c st.clients).bind Session.room) = none →
      mapGet c ((handleChat st db c d).1).clients = some ⟨u, some rid⟩) := by
  have hroom : jsRoomTruthy (jsOrRoom d.roomId ((mapGet c st.clients).bind Session.room)) =
      some rid := by
    rw [hpay]
    simp [jsOrRoom, jsRoomTruthy, hrid]
  have hmain :
      (handleChat st db c d).2.1.messages =
        db.messages ++ [⟨rid, u, d.content, d.type, st.now⟩] ∧
      (handleChat st db c d).2.2 =
        Effect.persist ⟨rid, u, d.content, d.type, st.now⟩ ::
          broadcast (handleChat st db c d).1
            (WireMsg.chatOut d.type d.content u rid st.now d.extra) (some c) := by
    simp only [handleChat, hroom, huser, memberRows_isEmpty_of_mem hmem]
    simp
  refine ⟨hmain.1, hmain.2, fun hnone => ?_⟩
  simp only [handleChat, hroom, huser, memberRows_isEmpty_of_mem hmem, hnone]
  simp [mapGet_mapSet_self]

/-- Witness for C9: alice (session room unset, member of room 5, never
joined via `join_room`) posts with payload `roomId = 5`: the row lands in
room 5 and her registry entry is bound to room 5. -/
theorem chat_payload_room_precedence_witness :
    (5, "alice") ∈ dbC9.room_members ∧
    (handleChat stC9 dbC9 1 dC9).2.1.messages =
      dbC9.messages ++ [⟨5, "alice", "yo", "message", 8⟩] ∧
    mapGet 1 ((handleChat stC9 dbC9 1 dC9).1).clients = some ⟨"alice", some 5⟩ := by
  have h := chat_payload_room_precedence stC9 dbC9 1 dC9 "alice" 5
    (by decide) (by decide) (by decide) (by decide)
  exact ⟨by decide, h.1, h.2.2 (by decide)⟩

/-- Counterexample for C4: logged-in bob, session room unset, not a member
of room 9, sends `{type:"message", roomId:9, content:"x"}`.  The payload
room is truthy, so the no-room guard does not fire and the notice is
`You are not a member of this room`, not `Please join a room first` as the
claim states; nothing is persisted and nothing is broadcast. -/
theorem chat_error_notice_counterexample :
    handleWsMessage stC4 dbC4 1 (InEvent.parsed dC4) =
      (stC4, dbC4, [Effect.send 1 (WireMsg.errMsg "You are not a member of this room")]) ∧
    Effect.send 1 (WireMsg.errMsg "Please join a room first") ∉
      (handleWsMessage stC4 dbC4 1 (InEvent.parsed dC4)).2.2 := by
  constructor
  · decide
  · decide

/-- Amended C4: a logged-in user with session room unset who posts a
chat-content event carrying a room they are not a member of receives only
the `You are not a member of this room` error notice (the payload room
defeats the `Please join a room first` guard); the message log, the
registry and the whole server state are unchanged and nothing is
broadcast. -/
theorem chat_unset_session_not_member (st : ServerState) (db : DB) (c : Nat) (d : InData)
    (u : String) (rid : Nat)
    (huser : jsStrTruthy (localOf st c).currentUser = some u)
    (_hsess : jsRoomTruthy ((mapGet c st.clients).bind Session.room) = none)
    (hpay : d.roomId = some rid) (hrid : rid ≠ 0)
    (hmem : (rid, u) ∉ db.room_members) :
    handleChat st db c d =
      (st, db, [Effect.send c (WireMsg.errMsg "You are not a member of this room")]) := by
  have hroom : jsRoomTruthy (jsOrRoom d.roomId ((mapGet c st.clients).bind Session.room)) =
      some rid := by
    rw [hpay]
    simp [jsOrRoom, jsRoomTruthy, hrid]
  simp only [handleChat, hroom, huser, memberRows_isEmpty_of_not_mem hmem]
  simp

/-- Witness for the amended C4, at the claim's own scenario. -/
theorem chat_unset_session_not_member_witness :
    (9, "bob") ∉ dbC4.room_members ∧
    handleChat stC4 dbC4 1 dC4 =
      (stC4, dbC4, [Effect.send 1 (WireMsg.errMsg "You are not a member of this room")]) :=
  ⟨by decide,
   chat_unset_session_not_member stC4 dbC4 1 dC4 "bob" 9 (by decide) (by decide)
     (by decide) (by decide) (by decide)⟩

/-- Counterexample for C7: a parsed payload with the unrecognized type
`ping` matches no branch of the dispatch chain, so the handler produces no
effect at all — in particular no error notice is sent, contrary to the
claim that every malformed inbound event gets one. -/
theorem unknown_type_counterexample :
    handleWsMessage stC7 dbC7 1 (InEvent.parsed dC7) = (stC7, dbC7, []) ∧
    (handleWsMessage stC7 dbC7 1 (InEvent.parsed dC7)).2.2 = [] := by
  constructor
  · decide
  · decide

/-- Amended C7: an unparseable payload gets the `Invalid message format`
error notice sent to the originating connection only, with the state (and
hence every session and the registry) unchanged and the connection not
closed; a parsed payload whose type matches no handler branch (`login`,
`join_room`, `message`, `image`, `pdf`, `emoji`) is silently ignored — no
notice, no effect, no state change, connection not closed. -/
theorem malformed_event_handling (st : ServerState) (db : DB) (c : Nat) (d : InData)
    (h1 : d.type ≠ "login") (h2 : d.type ≠ "join_room") (h3 : d.type ≠ "message")
    (h4 : d.type ≠ "image") (h5 : d.type ≠ "pdf") (h6 : d.type ≠ "emoji") :
    handleWsMessage st db c InEvent.unparseable =
      (st, db, [Effect.send c (WireMsg.errMsg "Invalid message format")]) ∧
    handleWsMessage st db c (InEvent.parsed d) = (st, db, []) := by
  refine ⟨rfl, ?_⟩
  simp only [handleWsMessage, if_neg h1, if_neg h2]
  rw [if_neg (by simp [h3, h4, h5, h6])]

/-- Witness for the amended C7: `leave_room` (a protocol type with no
handler branch) is silently ignored, and an unparseable frame gets the
format error notice. -/
theorem malformed_event_handling_witness :
    handleWsMessage stC7 dbC7 1 (InEvent.parsed dC7b) = (stC7, dbC7, []) ∧
    handleWsMessage stC7 dbC7 1 InEvent.unparseable =
      (stC7, dbC7, [Effect.send 1 (WireMsg.errMsg "Invalid message format")]) := by
  have h := malformed_event_handling stC7 dbC7 1 dC7b (by decide) (by decide) (by decide)
    (by decide) (by decide) (by decide)
  exact ⟨h.2, h.1⟩

/-- Counterexample for C3: connection 1 logs in as alice, joins room 7 and
closes; the close handler deletes the registry entry, so when connection 2
then logs in as alice the restoration scan finds nothing and the new
session's room stays unset — not `roomId = 7` as the claim states. -/
theorem reconnect_after_close_counterexample :
    mapGet 2 ((run initialState dbC3 traceC3).1).clients = some ⟨"alice", none⟩ ∧
    mapGet 2 ((run initialState dbC3 traceC3).1).clients ≠ some ⟨"alice", some 7⟩ := by
  constructor
  · decide
  · decide

/-- Amended C3: room restoration on login happens exactly when a registry
entry for the identity still survives at login time (its connection's close
event not yet processed, e.g. a dropped transport): the new session — both
the registry entry and the closure variables — inherits that entry's room
directly.  The theorem holds for an arbitrary `room_members` table (here
even an empty one), so no membership check is re-run and no fresh
`join_room` is needed; once the close event is processed the entry is gone
and nothing is restored (see the counterexample). -/
theorem login_inherits_surviving_room (st : ServerState) (db : DB) (c : Nat)
    (username pw : String) (c1 : Nat) (sess : Session)
    (hfind : db.users.find? (fun p => p.1 == username) = some (username, pw))
    (hprev : st.clients.find? (fun p => p.2.username == username) = some (c1, sess)) :
    mapGet c ((handleLogin st db c username pw).1).clients = some ⟨username, sess.room⟩ ∧
    mapGet c ((handleLogin st db c username pw).1).locals =
      some ⟨some username, sess.room⟩ := by
  have hstate : (handleLogin st db c username pw).1 =
      { st with
        locals := mapSet c ⟨some username, sess.room⟩ st.locals,
        clients := mapSet c ⟨username, sess.room⟩ st.clients } := by
    simp only [handleLogin, hfind, bne_self_eq_false, Bool.false_eq_true, if_false, hprev]
    split
    · rfl
    · split
      · rfl
      · rfl
  rw [hstate]
  exact ⟨mapGet_mapSet_self c _ st.clients, mapGet_mapSet_self c _ st.locals⟩

/-- Witness for the amended C3: connection 1's transport dropped (its entry
with room 7 survives), connection 2 logs in as alice and inherits room 7
even though `room_members` is empty. -/
theorem login_inherits_surviving_room_witness :
    dbC3b.room_members = [] ∧
    mapGet 2 ((handleLogin stC3 dbC3b 2 "alice" "pw").1).clients =
      some ⟨"alice", some 7⟩ :=
  ⟨rfl,
   (login_inherits_surviving_room stC3 dbC3b 2 "alice" "pw" 1 ⟨"alice", some 7⟩
      (by decide) (by decide)).1⟩

/-- Claim C5: on a successful `join_room`, the joining connection receives
the join confirmation followed by the replay of at most 50 rows, all of the
joined room and in strictly increasing timestamp order (given the
append-only table), after which the system joined notice is broadcast and
never delivered to the joining connection; the database is unchanged. -/
theorem joinRoom_history_replay (st : ServerState) (db : DB) (c : Nat) (rid : Nat)
    (u : String) (rr : Nat × String)
    (huser : jsStrTruthy (localOf st c).currentUser = some u)
    (hmem : (rid, u) ∈ db.room_members)
    (hname : (db.chat_rooms.filter (fun r => r.1 == rid)).head? = some rr)
    (hasc : MessagesAsc db) :
    (handleJoin st db c (some rid)).2.2 =
      Effect.send c (WireMsg.sysMsg ("Joined room: " ++ rr.2)) ::
        ((replayList db rid).map (fun m =>
          Effect.send c
            (WireMsg.chatOut m.type m.content m.username m.room_id m.created_at []))
        ++ broadcast (handleJoin st db c (some rid)).1
            (WireMsg.sysRoom (u ++ " joined the room") rid) (some c)) ∧
    (handleJoin st db c (some rid)).2.1 = db ∧
    (replayList db rid).Pairwise (fun a b => a.created_at < b.created_at) ∧
    (∀ m ∈ replayList db rid, m.room_id = rid) ∧
    (replayList db rid).length ≤ 50 ∧
    (∀ m, Effect.send c m ∉ broadcast (handleJoin st db c (some rid)).1
        (WireMsg.sysRoom (u ++ " joined the room") rid) (some c)) := by
  refine ⟨?_, ?_, replayList_pairwise hasc, fun m hm => replayList_mem_room hm,
    replayList_length_le, fun m => broadcast_excludes⟩
  · simp only [handleJoin, huser, memberRows_isEmpty_of_mem hmem, hname]
    simp
  · simp only [handleJoin, huser, memberRows_isEmpty_of_mem hmem, hname]
    simp

/-- Witness for C5: alice joins room 7 whose history holds rows of rooms 7
and 9; the database is untouched, the replay is short and room-7 only. -/
theorem joinRoom_history_replay_witness :
    MessagesAsc dbC5 ∧
    (handleJoin stC5 dbC5 1 (some 7)).2.1 = dbC5 ∧
    (replayList dbC5 7).length ≤ 50 := by
  have h := joinRoom_history_replay stC5 dbC5 1 7 "alice" (7, "general")
    (by decide) (by decide) (by decide) (by decide)
  exact ⟨by decide, h.2.1, h.2.2.2.2.1⟩
